import Mathlib

/-!
Verification of the Carmate client-side request/response handling layer.

The definitions below are shallow embeddings of the Python source in
`src/`: validators, the error log, and the per-page submit handlers of
`register.py`, `pages/login.py`, `pages/update_profile.py`,
`pages/service_request.py`, `pages/upload_vechile_photos.py` and
`pages/forgot_password.py`.  HTTP responses are modelled as a record
carrying the status code, the declared content type, the raw body text,
and the result of attempting to parse the body as JSON (`none` when the
text does not parse, in which case a call to `resp.json()` raises).
-/

namespace Carmate

/-- JSON values, as produced by `resp.json()`, and equally the Python
dict/list/str/int values the pages build as payloads. -/
inductive Json where
  | str (s : String)
  | int (n : Int)
  | bool (b : Bool)
  | null
  | arr (xs : List Json)
  | obj (fields : List (String × Json))
deriving Repr

/-- Lookup of a key in the field list of a JSON object (first match, as in
a Python dict where keys are unique). -/
def lookupField : List (String × Json) → String → Option Json
  | [], _ => none
  | (k, v) :: fs, key => if k = key then some v else lookupField fs key

/-- Python `d[key]` on a parsed JSON value: succeeds only on an object that
has the key; anything else raises (KeyError / TypeError), modelled as
`none`. -/
def jsonIndex (j : Json) (key : String) : Option Json :=
  match j with
  | .obj fs => lookupField fs key
  | _ => none

/-- The whitespace characters Python `str.strip()` removes (ASCII range:
space, tab, newline, carriage return, vertical tab, form feed). -/
def isPySpace (c : Char) : Bool :=
  c = ' ' ∨ c = Char.ofNat 9 ∨ c = Char.ofNat 10 ∨ c = Char.ofNat 13 ∨
  c = Char.ofNat 11 ∨ c = Char.ofNat 12

/-- Python `s.strip()`: drop leading and trailing whitespace. -/
def pyStrip (s : String) : String :=
  ⟨((s.toList.dropWhile isPySpace).reverse.dropWhile isPySpace).reverse⟩

/-- Python `s.upper()` on the ASCII range (character by character, as
`str.upper` acts on ASCII text). -/
def pyUpper (s : String) : String :=
  ⟨s.toList.map Char.toUpper⟩

/-- Python `s.startswith(pat)`: `pat` is a prefix of `s`, character by
character. -/
def strStartsWith (s pat : String) : Bool :=
  pat.toList.isPrefixOf s.toList

/-- Does `needle` occur as a contiguous run inside `hay`?  Python
substring membership `needle in hay`. -/
def hasSubList (needle : List Char) : List Char → Bool
  | [] => needle.isEmpty
  | c :: rest => needle.isPrefixOf (c :: rest) || hasSubList needle rest

/-- The single-quote character, written by code point to keep source
hygiene. -/
def squote : String := String.singleton (Char.ofNat 39)

/-- Python `repr` of a string: single quotes unless the string itself
contains a single quote (then double quotes, as Python does). -/
def pyReprStr (s : String) : String :=
  if s.toList.any (fun c => c = Char.ofNat 39) then "\"" ++ s ++ "\""
  else squote ++ s ++ squote

mutual

/-- Python `repr` of a value (what `str(dict)` uses for the elements of a
dict, and what `str()` itself returns on containers). -/
def pyRepr : Json → String
  | .str s => pyReprStr s
  | .int n => toString n
  | .bool b => if b then "True" else "False"
  | .null => "None"
  | .arr xs => "[" ++ pyReprList xs ++ "]"
  | .obj fs => "\x7b" ++ pyReprFields fs ++ "\x7d"

/-- Comma-separated `repr` of list elements. -/
def pyReprList : List Json → String
  | [] => ""
  | [x] => pyRepr x
  | x :: y :: xs => pyRepr x ++ ", " ++ pyReprList (y :: xs)

/-- Comma-separated `repr` of dict items, rendered as `key: value` with
the key itself passed through string `repr`. -/
def pyReprFields : List (String × Json) → String
  | [] => ""
  | [(k, v)] => pyReprStr k ++ ": " ++ pyRepr v
  | (k, v) :: f :: fs => pyReprStr k ++ ": " ++ pyRepr v ++ ", " ++ pyReprFields (f :: fs)

end

/-- Python `str(x)`: the bare text for a string, `repr` otherwise (which
matches Python for ints, bools, None, lists and dicts). -/
def pyStr : Json → String
  | .str s => s
  | j => pyRepr j

mutual

/-- `json.dumps` with its default separators, as `requests` uses for a
`json=...` body. -/
def jsonDumps : Json → String
  | .str s => "\"" ++ s ++ "\""
  | .int n => toString n
  | .bool b => if b then "true" else "false"
  | .null => "null"
  | .arr xs => "[" ++ jsonDumpsList xs ++ "]"
  | .obj fs => "\x7b" ++ jsonDumpsFields fs ++ "\x7d"

/-- Comma-separated `json.dumps` of list elements. -/
def jsonDumpsList : List Json → String
  | [] => ""
  | [x] => jsonDumps x
  | x :: y :: xs => jsonDumps x ++ ", " ++ jsonDumpsList (y :: xs)

/-- Comma-separated `json.dumps` of object fields. -/
def jsonDumpsFields : List (String × Json) → String
  | [] => ""
  | [(k, v)] => "\"" ++ k ++ "\": " ++ jsonDumps v
  | (k, v) :: f :: fs => "\"" ++ k ++ "\": " ++ jsonDumps v ++ ", " ++ jsonDumpsFields (f :: fs)

end

/-- An HTTP response as the pages see it: the status code, the declared
content type header, the raw body text, and the result of parsing the
text as JSON — `none` when the text is not valid JSON, in which case
`resp.json()` raises. -/
structure Resp where
  status : Nat
  contentType : String
  text : String
  json? : Option Json
deriving Repr

/-- Exact message strings used by `register.py`. -/
def tooShortMsg : String := "Password must be at least 8 characters."

/-- Message for the missing-letter failure of the password policy. -/
def missingLetterMsg : String := "Password must include at least one letter."

/-- Message for the missing-digit failure of the password policy. -/
def missingDigitMsg : String := "Password must include at least one number."

/-- Regex class `[A-Za-z]` of `register.py`. -/
def isAsciiLetter (c : Char) : Bool :=
  (Char.ofNat 65 ≤ c ∧ c ≤ Char.ofNat 90) ∨ (Char.ofNat 97 ≤ c ∧ c ≤ Char.ofNat 122)

/-- Regex class of a decimal digit, for the `\d` check of `register.py`. -/
def isAsciiDigit (c : Char) : Bool :=
  Char.ofNat 48 ≤ c ∧ c ≤ Char.ofNat 57

/-- Embedding of `password_policy` from `src/register.py` lines 31-38:

    if not password or len(password) < 8: return False, tooShort
    if not re.search(r"[A-Za-z]", password): return False, missingLetter
    if not re.search(r"\d", password): return False, missingDigit
    return True, ""
-/
def password_policy (password : String) : Bool × String :=
  if password = "" ∨ password.length < 8 then (false, tooShortMsg)
  else if ¬ (password.toList.any isAsciiLetter) then (false, missingLetterMsg)
  else if ¬ (password.toList.any isAsciiDigit) then (false, missingDigitMsg)
  else (true, "")

/-- Regex class `[A-HJ-NPR-Z0-9]` of `pages/service_request.py`: uppercase
letters excluding I, O, Q, plus the digits. -/
def vinChar (c : Char) : Bool :=
  (Char.ofNat 65 ≤ c ∧ c ≤ Char.ofNat 72) ∨      -- A-H
  (Char.ofNat 74 ≤ c ∧ c ≤ Char.ofNat 78) ∨      -- J-N
  c = Char.ofNat 80 ∨                             -- P
  (Char.ofNat 82 ≤ c ∧ c ≤ Char.ofNat 90) ∨      -- R-Z
  isAsciiDigit c                                  -- 0-9

/-- Embedding of `valid_vin` from `src/pages/service_request.py` lines
34-38:

    v = (v or "").strip().upper()
    if not v: return True          # optional
    return bool(re.match(r"^[A-HJ-NPR-Z0-9]{11,17}$", v))
-/
def valid_vin (v : String) : Bool :=
  let t := pyUpper (pyStrip v)
  if t = "" then true
  else 11 ≤ t.length ∧ t.length ≤ 17 ∧ t.toList.all vinChar

/-- One entry of the session error log (`log_error` in `register.py`). -/
structure ErrorEntry where
  time : String
  title : String
  details : String
deriving Repr

/-- Embedding of `log_error` in `src/register.py` lines 16-21: appends one
entry to `st.session_state.error_log`. -/
def log_error (log : List ErrorEntry) (time title details : String) : List ErrorEntry :=
  log ++ [{ time := time, title := title, details := details }]

/-- Embedding of the debug footer selection in `src/register.py` lines
160-179: `log = st.session_state.error_log[-5:]` followed by
`for item in reversed(log)`; the entries rendered, in render order. -/
def footerShown (log : List ErrorEntry) : List ErrorEntry :=
  (log.drop (log.length - 5)).reverse

/-- Shared embedding of the 400-branch message extraction used verbatim by
`register.py` lines 106-113, `pages/login.py` lines 94-100 and
`pages/service_request.py` lines 167-173:

    try:
        backend_msg = resp.json().get("message", "Bad Request")
    except Exception:
        backend_msg = resp.text

A body that fails to parse, or parses to a non-object (where `.get`
raises AttributeError), falls to the `except` arm and yields the raw body
text. -/
def try400Msg (r : Resp) : String :=
  match r.json? with
  | some (.obj fs) =>
      match lookupField fs "message" with
      | some v => pyStr v
      | none => "Bad Request"
  | some _ => r.text
  | none => r.text

/-- Outcome of the register submit handler, `src/register.py` lines
86-125. `frontendError` is the catch-all `except Exception` arm (rendered
as a generic unexpected-frontend-error message). -/
inductive RegOutcome where
  | success (rendered : Json)
  | conflict (raw : String)
  | validationError (msg : String)
  | serverError (status : Nat) (raw : String)
  | frontendError
deriving Repr

/-- The JSON object rendered by the 201 branch of `register.py` lines
91-100: each field is read with `data["user"][...]`, any missing key
raises and lands in the catch-all (`none`). -/
def renderRegistered (data : Json) : Option Json := do
  let user ← jsonIndex data "user"
  let id ← jsonIndex user "id"
  let fullName ← jsonIndex user "fullName"
  let email ← jsonIndex user "email"
  let phone ← jsonIndex user "phone"
  let role ← jsonIndex user "role"
  let isActive ← jsonIndex user "isActive"
  pure (.obj [("id", id), ("fullName", fullName), ("email", email),
              ("phone", phone), ("role", role), ("isActive", isActive)])

/-- Embedding of the status branching of the register submit handler,
`src/register.py` lines 90-117: `201` renders the created user (or hits
the catch-all if the body is unusable), `409` warns about the duplicate
email, `400` extracts the backend message, every other status is the
generic server error. -/
def registerHandle (r : Resp) : RegOutcome :=
  if r.status = 201 then
    match r.json? with
    | none => .frontendError
    | some d =>
        match renderRegistered d with
        | none => .frontendError
        | some out => .success out
  else if r.status = 409 then .conflict r.text
  else if r.status = 400 then .validationError (try400Msg r)
  else .serverError r.status r.text

/-- Session state relevant to auth: `st.session_state["token"]` and
`st.session_state["user"]`, absent until login stores them. -/
structure Session where
  token : Option Json
  user : Option Json
deriving Repr

/-- The auth gate condition: a token key is present in the session. -/
def isAuthenticated (s : Session) : Bool := s.token.isSome

/-- Python membership `key in data` on a parsed JSON value: key lookup on
a dict, element equality on a list, substring test on a string; raises
TypeError (`none`) on int, bool and None. -/
def pyContains (j : Json) (key : String) : Option Bool :=
  match j with
  | .obj fs => some (lookupField fs key).isSome
  | .arr xs => some (xs.any fun x => match x with | .str s => s = key | _ => false)
  | .str s => some (hasSubList key.toList s.toList)
  | _ => none

/-- What one render of the login submit handler produced: the resulting
session, whether the success banner was shown, the error message of the
non-2xx branches, and whether the catch-all `except Exception` arm ran. -/
structure LoginResult where
  session : Session
  successShown : Bool
  message : Option String
  catchAll : Bool
deriving Repr

/-- The token/user extraction of `pages/login.py` lines 85-88 (run after
the success banner): `if "token" in data: st.session_state["token"] =
data["token"]`, then the same for `"user"`.  A membership test or index
that raises lands in the catch-all. -/
def loginStoreUser (sess : Session) (d : Json) : LoginResult :=
  match pyContains d "user" with
  | none => { session := sess, successShown := true, message := none, catchAll := true }
  | some true =>
      match jsonIndex d "user" with
      | none => { session := sess, successShown := true, message := none, catchAll := true }
      | some u =>
          { session := { sess with user := some u }, successShown := true,
            message := none, catchAll := false }
  | some false =>
      { session := sess, successShown := true, message := none, catchAll := false }

/-- The token part of the same extraction, `pages/login.py` lines 85-86. -/
def loginStoreToken (sess : Session) (d : Json) : LoginResult :=
  match pyContains d "token" with
  | none => { session := sess, successShown := true, message := none, catchAll := true }
  | some true =>
      match jsonIndex d "token" with
      | none => { session := sess, successShown := true, message := none, catchAll := true }
      | some t => loginStoreUser { sess with token := some t } d
  | some false => loginStoreUser sess d

/-- Embedding of the login submit status branching, `pages/login.py`
lines 82-111.  On 200/201 the body is parsed only when the content type
starts with `application/json` (else `data = {}`); the success banner is
shown before any token extraction; a JSON-declared but unparseable body
makes `resp.json()` raise into the catch-all, so no success banner is
shown there. -/
def loginHandle (sess : Session) (r : Resp) : LoginResult :=
  if r.status = 200 ∨ r.status = 201 then
    if strStartsWith r.contentType "application/json" then
      match r.json? with
      | none => { session := sess, successShown := false, message := none, catchAll := true }
      | some d => loginStoreToken sess d
    else
      { session := sess, successShown := true, message := none, catchAll := false }
  else if r.status = 401 ∨ r.status = 403 then
    { session := sess, successShown := false,
      message := some "Invalid email or password.", catchAll := false }
  else if r.status = 400 then
    { session := sess, successShown := false,
      message := some (try400Msg r), catchAll := false }
  else
    { session := sess, successShown := false,
      message := some ("Server error (" ++ toString r.status ++ ")"), catchAll := false }

/-- Outcome of the update-profile submit handler,
`src/pages/update_profile.py` lines 84-112. -/
inductive UpdOutcome where
  | success (rendered : Json)
  | validationError (msg : String)
  | serverError (status : Nat)
  | frontendError
deriving Repr

/-- The JSON object rendered by the 200 branch of `update_profile.py`
lines 90-98 (same as register but without the role field). -/
def renderUpdatedProfile (data : Json) : Option Json := do
  let user ← jsonIndex data "user"
  let id ← jsonIndex user "id"
  let fullName ← jsonIndex user "fullName"
  let email ← jsonIndex user "email"
  let phone ← jsonIndex user "phone"
  let isActive ← jsonIndex user "isActive"
  pure (.obj [("id", id), ("fullName", fullName), ("email", email),
              ("phone", phone), ("isActive", isActive)])

/-- Embedding of the update-profile status branching,
`src/pages/update_profile.py` lines 89-112.  Unlike the other pages the
400 branch reads `resp.json().get("message", "Bad Request")` with no
inner try/except (lines 100-102): a body that fails to parse, or parses
to a non-object, raises out of the branch into the catch-all
(`frontendError`, rendered as a generic unexpected-frontend-error
message) instead of falling back to the raw body text. -/
def updateProfileHandle (r : Resp) : UpdOutcome :=
  if r.status = 200 then
    match r.json? with
    | none => .frontendError
    | some d =>
        match renderUpdatedProfile d with
        | none => .frontendError
        | some out => .success out
  else if r.status = 400 then
    match r.json? with
    | some (.obj fs) =>
        .validationError
          (match lookupField fs "message" with
           | some v => pyStr v
           | none => "Bad Request")
    | _ => .frontendError
  else .serverError r.status

/-- An uploaded file as streamlit hands it to the page: name, raw bytes,
MIME type. -/
structure PhotoFile where
  name : String
  bytes : List Nat
  mime : String
deriving Repr

/-- One outbound HTTP call of the photo-upload page,
`src/pages/upload_vechile_photos.py` lines 64-71: the bearer token used
in the Authorization header, the `requestId` form field, and the files
each under form field name `photos` with `(name, bytes, mime)`. -/
structure UploadCall where
  bearerToken : Json
  requestId : String
  files : List (String × String × List Nat × String)
deriving Repr

/-- What a render of the photo-upload page ends in. `guardHalt` is the
token guard of lines 17-21: warning, a Go-to-Login button, `st.stop()`. -/
inductive UploadOutcome where
  | guardHalt
  | idle
  | missingRequestId
  | missingFiles
  | success (rendered : Json)
  | invalidRequest (raw : String)
  | unauthorized
  | serverError (status : Nat) (raw : String)
  | frontendError
deriving Repr

/-- Embedding of one render of `src/pages/upload_vechile_photos.py`: the
list of HTTP calls issued during the render, and the outcome.  The token
guard at lines 17-21 runs before any request: with no token in the
session the script warns, offers the login page, and `st.stop()`s, so the
rest of the page never executes. -/
def uploadPhotosRender (token? : Option Json) (buttonPressed : Bool)
    (requestId : String) (files : List PhotoFile) (resp : Resp) :
    List UploadCall × UploadOutcome :=
  match token? with
  | none => ([], .guardHalt)
  | some tok =>
      if ¬ buttonPressed then ([], .idle)
      else if requestId = "" then ([], .missingRequestId)
      else if files.isEmpty then ([], .missingFiles)
      else
        let call : UploadCall :=
          { bearerToken := tok, requestId := requestId,
            files := files.map fun f => ("photos", f.name, f.bytes, f.mime) }
        let outcome :=
          if resp.status = 200 ∨ resp.status = 201 then
            match resp.json? with
            | none => UploadOutcome.frontendError
            | some d => UploadOutcome.success d
          else if resp.status = 400 then UploadOutcome.invalidRequest resp.text
          else if resp.status = 401 ∨ resp.status = 403 then UploadOutcome.unauthorized
          else UploadOutcome.serverError resp.status resp.text
        ([call], outcome)

/-- The vehicle sub-dict of the service-request payload,
`src/pages/service_request.py` lines 117-125. -/
structure Vehicle where
  make : String
  model : String
  year : Int
  licensePlate : String
  vin : String
  mileage : Int
deriving Repr

/-- The service-request payload dict, `src/pages/service_request.py`
lines 117-132 (fields in construction order). -/
structure SRPayload where
  vehicle : Vehicle
  serviceType : String
  symptoms : String
  preferredDate : String
  preferredTimeWindow : String
  location : String
  urgency : String
deriving Repr

/-- The vehicle dict as a JSON/Python value, keys in the order the source
inserts them. -/
def vehicleJson (v : Vehicle) : Json :=
  .obj [("make", .str v.make), ("model", .str v.model), ("year", .int v.year),
        ("licensePlate", .str v.licensePlate), ("vin", .str v.vin),
        ("mileage", .int v.mileage)]

/-- The payload dict as a JSON/Python value, keys in the order the source
inserts them. -/
def payloadJson (p : SRPayload) : Json :=
  .obj [("vehicle", vehicleJson p.vehicle), ("serviceType", .str p.serviceType),
        ("symptoms", .str p.symptoms), ("preferredDate", .str p.preferredDate),
        ("preferredTimeWindow", .str p.preferredTimeWindow),
        ("location", .str p.location), ("urgency", .str p.urgency)]

/-- The request the service-request page sends: either a JSON body, or a
multipart request with plain form fields and file parts. -/
inductive SRRequest where
  | jsonBody (body : String)
  | multipart (formFields : List (String × String))
      (files : List (String × String × List Nat × String))
deriving Repr

/-- Embedding of the submit branch of `src/pages/service_request.py`
lines 139-157:

    if photos:
        files = [("photos", (f.name, f.getvalue(), f.type)) for f in photos]
        resp = requests.post(URL, data={"payload": str(payload)}, files=files, ...)
    else:
        resp = requests.post(URL, json=payload, ...)

With photos the payload travels as the Python `str()` of the dict under
the form field `payload`; without photos it travels as the
`json.dumps` body. -/
def buildServiceRequest (p : SRPayload) (photos : List PhotoFile) : SRRequest :=
  if ¬ photos.isEmpty then
    .multipart [("payload", pyStr (payloadJson p))]
      (photos.map fun f => ("photos", f.name, f.bytes, f.mime))
  else .jsonBody (jsonDumps (payloadJson p))

/-- A top-level statement of a streamlit page script, at the granularity
needed to model Python name resolution: imports and `def`s bind a module
name without evaluating anything; assignments and plain statements first
evaluate the names they reference, in order. -/
inductive Stmt where
  | importAs (n : String)
  | assign (n : String) (uses : List String)
  | defFun (n : String)
  | run (uses : List String)

/-- Result of executing a page script top to bottom: either it finishes,
or a reference to a not-yet-bound name raises NameError, which nothing in
the script catches. -/
inductive RunResult where
  | finished
  | nameError (n : String)
deriving Repr, DecidableEq

/-- The first referenced name not bound in the environment, if any. -/
def firstUnbound (env : List String) : List String → Option String
  | [] => none
  | u :: us => if env.contains u then firstUnbound env us else some u

/-- Execute a page script top to bottom, binding names and raising
NameError at the first reference to an unbound name — exactly Python
module execution at name-resolution granularity. -/
def runScript (env : List String) : List Stmt → RunResult
  | [] => .finished
  | .importAs n :: rest => runScript (n :: env) rest
  | .defFun n :: rest => runScript (n :: env) rest
  | .assign n uses :: rest =>
      match firstUnbound env uses with
      | some u => .nameError u
      | none => runScript (n :: env) rest
  | .run uses :: rest =>
      match firstUnbound env uses with
      | some u => .nameError u
      | none => runScript env rest

/-- Transcription of `src/pages/forgot_password.py` top to bottom,
parameterised by the form state.  The submit block (lines 23-44) runs at
its position in the file: it evaluates `fp_email` and then — only when
the email is non-empty, because `not fp_email or ...` short-circuits —
the name `is_valid_email`, which is only defined later, at line 47.  The
`try` of that block starts at line 29, after the validation line, so a
NameError raised there is not caught.  `re`, used inside
`is_valid_email`, is never imported in this file. -/
def forgotPasswordScript (sendBtn : Bool) (emailNonempty : Bool) : List Stmt :=
  [.importAs "st", .importAs "requests", .importAs "time", .importAs "traceback",
   .assign "API_BASE" [],
   .assign "FORGOT_URL" ["API_BASE"],
   .run ["st"],
   .run ["st"],
   .assign "fp_email" ["st"],
   .assign "send_btn" ["st"],
   .run (if sendBtn then
           if emailNonempty then ["send_btn", "fp_email", "is_valid_email"]
           else ["send_btn", "fp_email", "st"]
         else ["send_btn"]),
   .defFun "is_valid_email",
   .run ["st"],
   .defFun "log_bug"]

/-- Transcription of `src/pages/update_profile.py` lines 1-14 top to
bottom: the file imports `re`, `traceback`, `requests` and `streamlit`
but never `pathlib.Path`, then at line 14 evaluates
`BASE_DIR = Path(__file__).resolve().parent`. -/
def updateProfileScript : List Stmt :=
  [.importAs "re", .importAs "traceback", .importAs "requests", .importAs "st",
   .assign "API_BASE" [],
   .assign "UPDATE_PROFILE_URL" ["API_BASE"],
   .run ["st"],
   .assign "BASE_DIR" ["Path"]]

/-! Concrete fixtures used by witnesses and counterexamples. -/

/-- A 200 response with a well-formed register body: under the claimed
shared contract this would be a success. -/
def respOk200 : Resp :=
  { status := 200, contentType := "application/json", text := "ok",
    json? := some (.obj [("user", .obj [("id", .int 7)])]) }

/-- A 401 response: under the claimed shared contract this would be an
auth failure. -/
def respDenied401 : Resp :=
  { status := 401, contentType := "text/plain", text := "denied", json? := none }

/-- A 400 response whose body is not JSON. -/
def respRaw400 : Resp :=
  { status := 400, contentType := "text/html", text := "oops", json? := none }

/-- A 400 response with a JSON object body carrying a message field. -/
def respMsg400 : Resp :=
  { status := 400, contentType := "application/json", text := "\x7b...\x7d",
    json? := some (.obj [("message", .str "email taken")]) }

/-- A 201 register response with a full user object. -/
def respCreated201 : Resp :=
  { status := 201, contentType := "application/json", text := "created",
    json? := some (.obj [("user", .obj
      [("id", .int 7), ("fullName", .str "Arjun Khatri"),
       ("email", .str "arjun@example.com"), ("phone", .str "+1 555"),
       ("role", .str "customer"), ("isActive", .bool true)])]) }

/-- A session with no token and no user. -/
def sessEmpty : Session := { token := none, user := none }

/-- A 200 login response that declares a JSON content type but whose body
text does not parse as JSON. -/
def respBadJsonLogin : Resp :=
  { status := 200, contentType := "application/json", text := "garbage", json? := none }

/-- A 200 login response with a JSON object body carrying a token. -/
def respLoginTok : Resp :=
  { status := 200, contentType := "application/json", text := "body",
    json? := some (.obj [("token", .str "abc")]) }

/-- A sample service-request payload. -/
def samplePayload : SRPayload :=
  { vehicle := { make := "Toyota", model := "Camry", year := 2024,
                 licensePlate := "", vin := "", mileage := 0 },
    serviceType := "Oil Change", symptoms := "squealing when braking",
    preferredDate := "2026-10-13", preferredTimeWindow := "Flexible",
    location := "Commerce, TX", urgency := "Medium" }

/-- A sample uploaded photo. -/
def samplePhoto : PhotoFile :=
  { name := "dash.png", bytes := [137, 80, 78, 71], mime := "image/png" }

/-! Theorems for the claims. -/

/-- C1 counterexample: the register submit handler does not follow the
claimed shared contract at the edges — a 200 response (claimed: success)
and a 401 response (claimed: auth failure) both fall into the generic
server-error branch, because the handler only tests 201, 409 and 400. -/
theorem register_200_and_401_are_server_error :
    registerHandle respOk200 = RegOutcome.serverError 200 "ok" ∧
    registerHandle respDenied401 = RegOutcome.serverError 401 "denied" :=
  ⟨rfl, rfl⟩

/-- C2: evaluating the code at the failing inputs.  Executing
`pages/update_profile.py` top to bottom raises an uncaught NameError at
`BASE_DIR = Path(...)` (line 14, `pathlib.Path` never imported), before
any form or catch-all exists; and submitting `pages/forgot_password.py`
with a non-empty email raises an uncaught NameError at
`is_valid_email(fp_email)` (line 25, the function is only defined at
line 47, and the enclosing `try` only starts at line 29).  Both
exceptions propagate past the page boundary, contradicting the claimed
never-throws contract. -/
theorem uncaught_name_error_eval :
    runScript [] updateProfileScript = RunResult.nameError "Path" ∧
    runScript [] (forgotPasswordScript true true) = RunResult.nameError "is_valid_email" :=
  ⟨rfl, rfl⟩

/-- C5 counterexample: `valid_vin` uppercases its input before matching,
so the all-lowercase rendering of a valid VIN is accepted — the claim
states that an input containing lowercase letters does not match. -/
theorem valid_vin_accepts_lowercase :
    valid_vin "1hgcm82633a004352" = true :=
  rfl

/-- C9 counterexample: a 200 login response that declares a JSON content
type but whose body does not parse makes `resp.json()` raise into the
catch-all: the success banner is not rendered (the claim states it still
is), and no token is stored. -/
theorem login_bad_json_body_shows_no_success :
    (loginHandle sessEmpty respBadJsonLogin).successShown = false ∧
    (loginHandle sessEmpty respBadJsonLogin).catchAll = true ∧
    (loginHandle sessEmpty respBadJsonLogin).session.token = none :=
  ⟨rfl, rfl, rfl⟩

/-- C4 counterexample: on a 400 response whose body is not JSON, the
profile-update handler does not fall back to the raw body text — the
bare `resp.json()` of its 400 branch raises into the catch-all and a
generic frontend error is reported — while the register handler on the
same response does render the raw body text. -/
theorem update_profile_400_non_json_body_generic :
    updateProfileHandle respRaw400 = UpdOutcome.frontendError ∧
    registerHandle respRaw400 = RegOutcome.validationError "oops" ∧
    UpdOutcome.frontendError ≠ UpdOutcome.validationError "oops" :=
  ⟨rfl, rfl, by intro h; exact UpdOutcome.noConfusion h⟩

/-- C8: the debug footer shows exactly the `min 5 (length)` most recently
recorded entries, newest first, while `log_error` only ever appends — the
underlying log retains every recorded entry as a prefix of the new log. -/
theorem error_log_footer_last_five (log : List ErrorEntry) (t ti d : String) :
    footerShown log = log.reverse.take 5 ∧
    (footerShown log).length = min 5 log.length ∧
    log_error log t ti d = log ++ [{ time := t, title := ti, details := d }] := by
  have h1 : footerShown log = log.reverse.take 5 := by
    have h : footerShown log = (log.rtake 5).reverse := rfl
    rw [h, List.rtake_eq_reverse_take_reverse, List.reverse_reverse]
  refine ⟨h1, ?_, rfl⟩
  rw [h1]
  simp [List.length_take]

/-- C3: `password_policy` returns exactly the first failing reason in the
short-circuit order length, letter, digit: the too-short reason iff the
length is below 8, else the missing-letter reason iff no `[A-Za-z]`
character occurs, else the missing-number reason iff no digit occurs,
else it passes; and `password_policy "short1"` fails with the too-short
reason even though the string contains a digit. -/
theorem password_policy_first_failing_reason (s : String) :
    (password_policy s = (false, tooShortMsg) ↔ s.length < 8) ∧
    (password_policy s = (false, missingLetterMsg) ↔
        8 ≤ s.length ∧ s.toList.any isAsciiLetter = false) ∧
    (password_policy s = (false, missingDigitMsg) ↔
        8 ≤ s.length ∧ s.toList.any isAsciiLetter = true ∧
          s.toList.any isAsciiDigit = false) ∧
    ((password_policy s).1 = true ↔
        8 ≤ s.length ∧ s.toList.any isAsciiLetter = true ∧
          s.toList.any isAsciiDigit = true) ∧
    password_policy "short1" = (false, tooShortMsg) := by
  have e1 : tooShortMsg ≠ missingLetterMsg := by decide
  have e2 : tooShortMsg ≠ missingDigitMsg := by decide
  have e3 : missingLetterMsg ≠ missingDigitMsg := by decide
  have hshort : password_policy "short1" = (false, tooShortMsg) := rfl
  rcases Nat.lt_or_ge s.length 8 with h1 | h1
  · have hp : password_policy s = (false, tooShortMsg) := by
      unfold password_policy; rw [if_pos (Or.inr h1)]
    rw [hp]
    exact ⟨iff_of_true rfl h1,
           iff_of_false (fun h => e1 (congrArg Prod.snd h)) (fun h => by omega),
           iff_of_false (fun h => e2 (congrArg Prod.snd h)) (fun h => by omega),
           iff_of_false (fun h => Bool.false_ne_true h) (fun h => by omega),
           hshort⟩
  · have hor : ¬ (s = "" ∨ s.length < 8) := by
      rintro (he | he)
      · subst he; revert h1; decide
      · omega
    cases h2 : s.toList.any isAsciiLetter with
    | false =>
        have hp : password_policy s = (false, missingLetterMsg) := by
          unfold password_policy
          rw [if_neg hor, if_pos (by rw [h2]; decide)]
        rw [hp]
        exact ⟨iff_of_false (fun h => e1.symm (congrArg Prod.snd h)) (fun h => by omega),
               iff_of_true rfl ⟨h1, rfl⟩,
               iff_of_false (fun h => e3 (congrArg Prod.snd h)) (fun h => Bool.noConfusion h.2.1),
               iff_of_false (fun h => Bool.noConfusion h) (fun h => Bool.noConfusion h.2.1),
               hshort⟩
    | true =>
        cases h3 : s.toList.any isAsciiDigit with
        | false =>
            have hp : password_policy s = (false, missingDigitMsg) := by
              unfold password_policy
              rw [if_neg hor, if_neg (by rw [h2]; decide), if_pos (by rw [h3]; decide)]
            rw [hp]
            exact ⟨iff_of_false (fun h => e2.symm (congrArg Prod.snd h)) (fun h => by omega),
                   iff_of_false (fun h => e3.symm (congrArg Prod.snd h)) (fun h => Bool.noConfusion h.2),
                   iff_of_true rfl ⟨h1, rfl, rfl⟩,
                   iff_of_false (fun h => Bool.noConfusion h) (fun h => Bool.noConfusion h.2.2),
                   hshort⟩
        | true =>
            have hp : password_policy s = (true, "") := by
              unfold password_policy
              rw [if_neg hor, if_neg (by rw [h2]; decide), if_neg (by rw [h3]; decide)]
            rw [hp]
            exact ⟨iff_of_false (fun h => Bool.noConfusion (congrArg Prod.fst h)) (fun h => by omega),
                   iff_of_false (fun h => Bool.noConfusion (congrArg Prod.fst h)) (fun h => Bool.noConfusion h.2),
                   iff_of_false (fun h => Bool.noConfusion (congrArg Prod.fst h)) (fun h => Bool.noConfusion h.2.2),
                   iff_of_true rfl ⟨h1, rfl, rfl⟩,
                   hshort⟩

/-- C5 (amended): blank input is valid (the field is optional); a
non-blank input is first stripped and uppercased and is then valid iff
the result is 11-17 characters drawn from the uppercase alphanumerics
excluding I, O and Q — so the quoted examples hold, and additionally a
lowercase spelling of a valid VIN is accepted because of the
normalisation. -/
theorem valid_vin_spec (s : String) :
    (valid_vin s = true ↔
      (pyUpper (pyStrip s) = "" ∨
        (11 ≤ (pyUpper (pyStrip s)).length ∧ (pyUpper (pyStrip s)).length ≤ 17 ∧
          ∀ c ∈ (pyUpper (pyStrip s)).toList, vinChar c = true))) ∧
    valid_vin "" = true ∧
    valid_vin "1HGCM82633A004352" = true ∧
    valid_vin "SHORT" = false ∧
    valid_vin "1hgcm82633a004352" = true := by
  refine ⟨?_, rfl, rfl, rfl, rfl⟩
  unfold valid_vin
  by_cases h : pyUpper (pyStrip s) = ""
  · simp [h]
  · simp [h, List.all_eq_true]

/-- C1 (amended): the register submit classification is total — 201 maps
to the success rendering (or to the catch-all when the body is
unusable), 409 to the conflict outcome, 400 to the validation-error
outcome with the extracted message, and every other status code,
including 200, 401 and 403, to the generic server error. -/
theorem register_status_classification (r : Resp) :
    (r.status = 409 → registerHandle r = RegOutcome.conflict r.text) ∧
    (r.status = 400 → registerHandle r = RegOutcome.validationError (try400Msg r)) ∧
    (r.status ≠ 201 → r.status ≠ 409 → r.status ≠ 400 →
        registerHandle r = RegOutcome.serverError r.status r.text) ∧
    (r.status = 201 →
        (∃ out, registerHandle r = RegOutcome.success out) ∨
          registerHandle r = RegOutcome.frontendError) := by
  unfold registerHandle
  refine ⟨fun h => ?_, fun h => ?_, fun h1 h2 h3 => ?_, fun h => ?_⟩
  · rw [if_neg (by omega), if_pos h]
  · rw [if_neg (by omega), if_neg (by omega), if_pos h]
  · rw [if_neg h1, if_neg h2, if_neg h3]
  · rw [if_pos h]
    cases hj : r.json? with
    | none => exact Or.inr rfl
    | some d =>
        cases hr : renderRegistered d with
        | none => simp [hr]
        | some out => exact Or.inl ⟨out, by simp [hr]⟩

/-- C1 witness: the amended classification applied to the concrete 401
response. -/
theorem register_status_classification_witness :
    registerHandle respDenied401 = RegOutcome.serverError 401 "denied" :=
  (register_status_classification respDenied401).2.2.1 (by decide) (by decide) (by decide)

/-- C7: a render of the photo-upload page whose session has no token
issues zero HTTP calls and halts at the guard, which offers the login
flow; and (non-vacuity) an authenticated render with the button pressed
and usable inputs does issue exactly one call. -/
theorem upload_guard_no_token_no_http (pressed : Bool) (rid : String)
    (files : List PhotoFile) (resp : Resp) :
    uploadPhotosRender none pressed rid files resp = ([], UploadOutcome.guardHalt) ∧
    (∀ tok f fs, rid ≠ "" →
      (uploadPhotosRender (some tok) true rid (f :: fs) resp).1.length = 1) := by
  refine ⟨rfl, fun tok f fs hrid => ?_⟩
  simp [uploadPhotosRender, hrid]

/-- C7 witness: the guard theorem applied to a concrete unauthenticated
render and a concrete authenticated one. -/
theorem upload_guard_no_token_no_http_witness :
    uploadPhotosRender none true "req-1" [samplePhoto] respOk200 =
      ([], UploadOutcome.guardHalt) ∧
    (uploadPhotosRender (some (Json.str "tok")) true "req-1" [samplePhoto] respOk200).1.length = 1 :=
  ⟨(upload_guard_no_token_no_http true "req-1" [samplePhoto] respOk200).1,
   (upload_guard_no_token_no_http true "req-1" [samplePhoto] respOk200).2
     (Json.str "tok") samplePhoto [] (by decide)⟩

/-- C10: the service-request submit encoding depends on whether photos
are attached — no photos sends the payload as a JSON body; at least one
photo sends a multipart request whose form field `payload` holds the
Python `str()` rendering of the dict, with each file under field name
`photos` carrying its original filename and MIME type; and on the sample
payload the `str()` rendering differs from the JSON rendering (it is the
single-quoted repr, not JSON). -/
theorem service_request_encoding (p : SRPayload) (photos : List PhotoFile) :
    (photos = [] →
      buildServiceRequest p photos = SRRequest.jsonBody (jsonDumps (payloadJson p))) ∧
    (photos ≠ [] →
      buildServiceRequest p photos =
        SRRequest.multipart [("payload", pyStr (payloadJson p))]
          (photos.map fun f => ("photos", f.name, f.bytes, f.mime))) ∧
    pyStr (payloadJson samplePayload) ≠ jsonDumps (payloadJson samplePayload) := by
  refine ⟨fun h => ?_, fun h => ?_, by decide⟩
  · subst h; rfl
  · cases photos with
    | nil => exact absurd rfl h
    | cons a as => rfl

/-- C10 witness: the encoding theorem applied to the sample payload with
one photo and with none. -/
theorem service_request_encoding_witness :
    buildServiceRequest samplePayload [samplePhoto] =
      SRRequest.multipart [("payload", pyStr (payloadJson samplePayload))]
        [("photos", "dash.png", [137, 80, 78, 71], "image/png")] ∧
    buildServiceRequest samplePayload [] =
      SRRequest.jsonBody (jsonDumps (payloadJson samplePayload)) :=
  ⟨(service_request_encoding samplePayload [samplePhoto]).2.1 (by simp),
   (service_request_encoding samplePayload []).1 rfl⟩

/-- Helper: when the 201 rendering succeeds, its id field is exactly the
id looked up under the user object of the input. -/
theorem renderRegistered_id (d o : Json) (h : renderRegistered d = some o) :
    jsonIndex o "id" = (jsonIndex d "user").bind fun u => jsonIndex u "id" := by
  unfold renderRegistered at h
  cases hu : jsonIndex d "user" with
  | none => rw [hu] at h; cases h
  | some u =>
      rw [hu] at h
      cases hid : jsonIndex u "id" with
      | none => simp [hid] at h
      | some idv =>
          cases hfn : jsonIndex u "fullName" with
          | none => simp [hid, hfn] at h
          | some fn =>
              cases hem : jsonIndex u "email" with
              | none => simp [hid, hfn, hem] at h
              | some em =>
                  cases hph : jsonIndex u "phone" with
                  | none => simp [hid, hfn, hem, hph] at h
                  | some phv =>
                      cases hro : jsonIndex u "role" with
                      | none => simp [hid, hfn, hem, hph, hro] at h
                      | some ro =>
                          cases hia : jsonIndex u "isActive" with
                          | none => simp [hid, hfn, hem, hph, hro, hia] at h
                          | some ia =>
                              simp [hid, hfn, hem, hph, hro, hia] at h
                              subst h
                              simp only [Option.some_bind]
                              simp [jsonIndex, lookupField]
                              exact hid.symm

/-- C6: whenever the register submit handler renders a confirmation (the
201 branch with a usable body), the id shown in the rendered JSON equals
the `user.id` field of the response body, unchanged. -/
theorem register_201_id_roundtrip (r : Resp) (out : Json) :
    registerHandle r = RegOutcome.success out →
      jsonIndex out "id" =
        (r.json?.bind fun d => jsonIndex d "user").bind fun u => jsonIndex u "id" := by
  intro h
  unfold registerHandle at h
  by_cases h201 : r.status = 201
  · rw [if_pos h201] at h
    cases hj : r.json? with
    | none => simp only [hj] at h; exact RegOutcome.noConfusion h
    | some d =>
        simp only [hj] at h
        cases hr : renderRegistered d with
        | none => simp only [hr] at h; exact RegOutcome.noConfusion h
        | some o =>
            simp only [hr] at h
            injection h with ho
            subst ho
            simpa using renderRegistered_id d o hr
  · rw [if_neg h201] at h
    split_ifs at h

/-- C6 witness: the round-trip theorem applied to the concrete 201
response. -/
theorem register_201_id_roundtrip_witness :
    jsonIndex (Json.obj
      [("id", Json.int 7), ("fullName", Json.str "Arjun Khatri"),
       ("email", Json.str "arjun@example.com"), ("phone", Json.str "+1 555"),
       ("role", Json.str "customer"), ("isActive", Json.bool true)]) "id" =
      (respCreated201.json?.bind fun d => jsonIndex d "user").bind fun u =>
        jsonIndex u "id" :=
  register_201_id_roundtrip respCreated201 _ rfl

/-- C4 (amended): for a 400 response, register and login (and the
identically coded service-request handler) render and log the `message`
field of a JSON-object body when one is present, and the raw body text
when the body does not parse; the profile-update handler renders the
`message` field when the body parses to an object but, lacking the inner
try/except, reports the generic catch-all frontend error when the body
does not parse; the photo-upload page renders the raw body text for
every 400. -/
theorem msg400_extraction_by_page (r : Resp) (sess : Session)
    (fs : List (String × Json)) (v tok : Json) (rid : String) (ph : PhotoFile) :
    (r.status = 400 → r.json? = some (.obj fs) → lookupField fs "message" = some v →
      registerHandle r = RegOutcome.validationError (pyStr v) ∧
      (loginHandle sess r).message = some (pyStr v) ∧
      updateProfileHandle r = UpdOutcome.validationError (pyStr v)) ∧
    (r.status = 400 → r.json? = none →
      registerHandle r = RegOutcome.validationError r.text ∧
      (loginHandle sess r).message = some r.text ∧
      updateProfileHandle r = UpdOutcome.frontendError) ∧
    (r.status = 400 → rid ≠ "" →
      (uploadPhotosRender (some tok) true rid [ph] r).2 =
        UploadOutcome.invalidRequest r.text) := by
  refine ⟨fun h400 hj hm => ?_, fun h400 hj => ?_, fun h400 hrid => ?_⟩
  · refine ⟨?_, ?_, ?_⟩
    · simp [registerHandle, h400, try400Msg, hj, hm]
    · simp [loginHandle, h400, try400Msg, hj, hm]
    · simp [updateProfileHandle, h400, hj, hm]
  · refine ⟨?_, ?_, ?_⟩
    · simp [registerHandle, h400, try400Msg, hj]
    · simp [loginHandle, h400, try400Msg, hj]
    · simp [updateProfileHandle, h400, hj]
  · simp [uploadPhotosRender, h400, hrid]

/-- C4 witness: the amended extraction applied to the concrete 400
responses. -/
theorem msg400_extraction_by_page_witness :
    registerHandle respMsg400 = RegOutcome.validationError "email taken" ∧
    updateProfileHandle respRaw400 = UpdOutcome.frontendError :=
  ⟨((msg400_extraction_by_page respMsg400 sessEmpty
      [("message", Json.str "email taken")] (Json.str "email taken")
      (Json.str "t") "r" samplePhoto).1 rfl rfl rfl).1,
   ((msg400_extraction_by_page respRaw400 sessEmpty [] (Json.null)
      (Json.str "t") "r" samplePhoto).2.1 rfl rfl).2.2⟩

/-- Helper: the user-storing step of the login success branch on an
object body never touches the token and always leaves the success banner
shown with no catch-all. -/
theorem loginStoreUser_obj (s : Session) (fs : List (String × Json)) :
    (loginStoreUser s (.obj fs)).session.token = s.token ∧
    (loginStoreUser s (.obj fs)).successShown = true ∧
    (loginStoreUser s (.obj fs)).catchAll = false := by
  unfold loginStoreUser
  cases h : lookupField fs "user" <;> simp [pyContains, jsonIndex, h]

/-- C9 (amended): for a 200/201 login response — if the content type does
not declare JSON, the success banner is shown and the session is
untouched; if it declares JSON but the body does not parse, the
catch-all runs, no success banner is shown and the session is untouched;
if it declares JSON and the body parses to an object, the success banner
is shown and the token is stored iff the object has a `token` key (else
the session token is unchanged, so an unauthenticated session stays
unauthenticated). -/
theorem login_token_storage (sess : Session) (r : Resp) (fs : List (String × Json)) :
    (r.status = 200 ∨ r.status = 201 →
      strStartsWith r.contentType "application/json" = false →
        loginHandle sess r =
          { session := sess, successShown := true, message := none, catchAll := false }) ∧
    (r.status = 200 ∨ r.status = 201 →
      strStartsWith r.contentType "application/json" = true → r.json? = none →
        loginHandle sess r =
          { session := sess, successShown := false, message := none, catchAll := true }) ∧
    (r.status = 200 ∨ r.status = 201 →
      strStartsWith r.contentType "application/json" = true → r.json? = some (.obj fs) →
        (loginHandle sess r).successShown = true ∧
        (loginHandle sess r).session.token =
          (match lookupField fs "token" with
           | some t => some t
           | none => sess.token) ∧
        (lookupField fs "token" = none → sess.token = none →
          isAuthenticated (loginHandle sess r).session = false)) := by
  refine ⟨fun hst hct => ?_, fun hst hct hj => ?_, fun hst hct hj => ?_⟩
  · simp [loginHandle, hst, hct]
  · simp [loginHandle, hst, hct, hj]
  · have hl : loginHandle sess r = loginStoreToken sess (.obj fs) := by
      simp [loginHandle, hst, hct, hj]
    rw [hl]
    cases hlk : lookupField fs "token" with
    | none =>
        have hred : loginStoreToken sess (.obj fs) = loginStoreUser sess (.obj fs) := by
          unfold loginStoreToken
          simp [pyContains, hlk]
        rw [hred]
        refine ⟨(loginStoreUser_obj sess fs).2.1, ?_, fun _ hs => ?_⟩
        · rw [(loginStoreUser_obj sess fs).1]
        · simp [isAuthenticated, (loginStoreUser_obj sess fs).1, hs]
    | some t =>
        have hred : loginStoreToken sess (.obj fs) =
            loginStoreUser { sess with token := some t } (.obj fs) := by
          unfold loginStoreToken
          simp [pyContains, hlk, jsonIndex]
        rw [hred]
        exact ⟨(loginStoreUser_obj { sess with token := some t } fs).2.1,
               (loginStoreUser_obj { sess with token := some t } fs).1,
               fun hnone _ => Option.noConfusion hnone⟩

/-- C9 witness: the amended storage characterisation applied to a
concrete token-bearing 200 login response. -/
theorem login_token_storage_witness :
    (loginHandle sessEmpty respLoginTok).successShown = true ∧
    (loginHandle sessEmpty respLoginTok).session.token = some (Json.str "abc") :=
  ⟨((login_token_storage sessEmpty respLoginTok
      [("token", Json.str "abc")]).2.2 (Or.inl rfl) rfl rfl).1,
   ((login_token_storage sessEmpty respLoginTok
      [("token", Json.str "abc")]).2.2 (Or.inl rfl) rfl rfl).2.1⟩

end Carmate
